import Mathlib

/-!
Verification development for `feature_scape/scripts/palm2_language_model.py`
of the RecipeML repository.

The module defines two classes:

* `PaLMLanguageModel` — stores an API key, configures the process-wide
  `google.generativeai` client at construction, and exposes `generate_text`,
  which forwards its arguments to the remote `palm.generate_text` endpoint
  and returns the `result` field of the completion object.
* `PaLMPromptModule` — stateless; `generate_recipe_preperation_time_prompt`
  interpolates a recipe name into a fixed f-string template.

The remote service is embedded as an explicit function argument
(`GenerateTextRequest → Except ε Completion`), so that pass-through and
error-propagation properties can be stated for every possible behaviour of
the remote side.  Python f-strings are embedded as a list of parts (literal
text or the interpolated field) folded into a string.
-/

namespace RecipeML

/-- One part of a Python f-string with a single interpolated variable:
either a literal piece of text or the interpolation field. -/
inductive FStringPart where
  | lit (s : String)
  | field
deriving DecidableEq

/-- `true` exactly on the interpolation field. -/
def FStringPart.isField : FStringPart → Bool
  | FStringPart.field => true
  | FStringPart.lit _ => false

/-- Evaluate an f-string: concatenate the parts left to right, substituting
`value` for each interpolation field. -/
def formatFString (parts : List FStringPart) (value : String) : String :=
  parts.foldl
    (fun acc part =>
      acc ++ match part with
        | FStringPart.lit s => s
        | FStringPart.field => value)
    ""

/-- The literal text of the template before `{recipe_name}`
(source lines 137–139): a newline, eight spaces of indentation, the first
sentence, a newline, eight spaces, and the second line up to the
substitution point. -/
def prepTimeTextBefore : String :=
  "\n        You are an expert chef with extensive knowledge of preparing a wide variety of recipes.\n        Calculate the usual preperation time for preparing the recipe named "

/-- The literal text of the template after `{recipe_name}`
(source lines 139–142), ending with a newline followed by eight spaces. -/
def prepTimeTextAfter : String :=
  ", the accurate number of calories in it, and the type of this cuisine (like continental, chinese, indian etc).\n        Return a python list of length 3 with the preperation time (in minutes), calorie count (integer value), and the type of cuisine.\n        Do not add headings. Keep the list minimalist.\n        "

/-- The f-string template of `generate_recipe_preperation_time_prompt`
(source lines 137–142): literal text, one interpolation field for
`recipe_name`, literal text. -/
def prepTimeTemplate : List FStringPart :=
  [FStringPart.lit prepTimeTextBefore, FStringPart.field,
    FStringPart.lit prepTimeTextAfter]

/-- `PaLMPromptModule` (source lines 104–143).  Its `__init__` does nothing
and stores nothing, so the structure has no fields. -/
structure PaLMPromptModule

/-- `PaLMPromptModule.__init__` (source lines 120–121): stores no state. -/
def PaLMPromptModule.init : PaLMPromptModule := ⟨⟩

/-- `PaLMPromptModule.generate_recipe_preperation_time_prompt`
(source lines 123–143): returns the template with `recipe_name`
interpolated.  `self` is unused by the source. -/
def PaLMPromptModule.generate_recipe_preperation_time_prompt
    (_self : PaLMPromptModule) (recipe_name : String) : String :=
  formatFString prepTimeTemplate recipe_name

/-- The request sent by `palm.generate_text`: the keyword arguments of the
remote call at source lines 94–99. -/
structure GenerateTextRequest where
  model : String
  prompt : String
  temperature : ℚ
  max_output_tokens : Int
deriving DecidableEq

/-- The completion object returned by the remote service; `generate_text`
reads only its `result` field (source line 101).  The field is optional,
as the remote service may return no text. -/
structure Completion where
  result : Option String
deriving DecidableEq

/-- The process-wide configuration of the `google.generativeai` client:
at most one configured credential, shared by the whole process. -/
structure PalmGlobalConfig where
  configured_api_key : Option String
deriving DecidableEq

/-- Modelled from the spec: `palm.configure(api_key=...)` mutates the
process-wide client configuration, replacing whatever credential was
configured before.  The client library is third-party code, so its
configuration semantics is taken from the spec's description. -/
def palm_configure (api_key : String) (_cfg : PalmGlobalConfig) :
    PalmGlobalConfig :=
  ⟨some api_key⟩

/-- `PaLMLanguageModel` (source lines 46–101): holds the API key given at
construction. -/
structure PaLMLanguageModel where
  api_key : String
deriving DecidableEq

/-- `PaLMLanguageModel.__init__` (source lines 64–72): stores `api_key` on
the instance and calls `palm.configure(api_key=self.api_key)`, mutating
the process-wide configuration.  Returns the new instance together with
the updated global configuration. -/
def PaLMLanguageModel.init (api_key : String) (cfg : PalmGlobalConfig) :
    PaLMLanguageModel × PalmGlobalConfig :=
  (⟨api_key⟩, palm_configure api_key cfg)

/-- The request constructed by `generate_text` (source lines 94–99): the
fixed model name `"models/text-bison-001"`, the caller's prompt as
`prompt`, `randomness` as `temperature`, and `max_response_length` as
`max_output_tokens`. -/
def PaLMLanguageModel.generate_text_request (_self : PaLMLanguageModel)
    (prompt : String) (randomness : ℚ) (max_response_length : Int) :
    GenerateTextRequest :=
  ⟨"models/text-bison-001", prompt, randomness, max_response_length⟩

/-- `PaLMLanguageModel.generate_text` (source lines 74–101), with the
remote `palm.generate_text` supplied as an explicit function that either
raises an error of type `ε` or returns a completion object.  The body
performs the remote call on the constructed request and returns
`completion.result`; there is no try/except, so an error from the remote
call is returned as that same error.  The second component of the result
is the instance after the call: the method assigns no attribute, so it is
`self` unchanged. -/
def PaLMLanguageModel.generate_text {ε : Type}
    (palmGenerateText : GenerateTextRequest → Except ε Completion)
    (self : PaLMLanguageModel) (prompt : String) (randomness : ℚ)
    (max_response_length : Int) :
    Except ε (Option String) × PaLMLanguageModel :=
  match palmGenerateText
      (PaLMLanguageModel.generate_text_request self prompt randomness
        max_response_length) with
  | Except.error e => (Except.error e, self)
  | Except.ok completion => (Except.ok completion.result, self)

/-- `generate_text` called with `randomness` and `max_response_length`
omitted: the Python signature (source line 74) defaults them to `0.7` and
`1000`. -/
def PaLMLanguageModel.generate_text_defaults {ε : Type}
    (palmGenerateText : GenerateTextRequest → Except ε Completion)
    (self : PaLMLanguageModel) (prompt : String) :
    Except ε (Option String) × PaLMLanguageModel :=
  PaLMLanguageModel.generate_text palmGenerateText self prompt (0.7 : ℚ) 1000

/-- Modelled from the spec: an outbound remote call carries the credential
taken from the process-wide client configuration (not from any
per-instance field) together with the request. -/
structure OutboundCall where
  credential : Option String
  request : GenerateTextRequest
deriving DecidableEq

/-- Modelled from the spec: the third-party client attaches the
process-wide configured credential to each outbound call. -/
def palm_outbound_call (cfg : PalmGlobalConfig) (req : GenerateTextRequest) :
    OutboundCall :=
  ⟨cfg.configured_api_key, req⟩

/-- The outbound call produced by `generate_text` under a given
process-wide configuration: the configured credential and the request of
source lines 94–99. -/
def PaLMLanguageModel.generate_text_outbound (cfg : PalmGlobalConfig)
    (self : PaLMLanguageModel) (prompt : String) (randomness : ℚ)
    (max_response_length : Int) : OutboundCall :=
  palm_outbound_call cfg
    (PaLMLanguageModel.generate_text_request self prompt randomness
      max_response_length)

/-- A newline followed by eight spaces: the indentation unit that the
f-string template carries at its start and end. -/
def indentUnit : String := "\n        "

/-- `prepTimeTextBefore` with its leading newline and eight spaces
removed. -/
def prepTimeTextBeforeRest : String :=
  "You are an expert chef with extensive knowledge of preparing a wide variety of recipes.\n        Calculate the usual preperation time for preparing the recipe named "

/-- `prepTimeTextAfter` with its trailing newline and eight spaces
removed. -/
def prepTimeTextAfterBody : String :=
  ", the accurate number of calories in it, and the type of this cuisine (like continental, chinese, indian etc).\n        Return a python list of length 3 with the preperation time (in minutes), calorie count (integer value), and the type of cuisine.\n        Do not add headings. Keep the list minimalist."

/-! ### Helper lemmas -/

lemma string_append_assoc (a b c : String) : a ++ b ++ c = a ++ (b ++ c) := by
  cases a with | mk la => cases b with | mk lb => cases c with | mk lc =>
  exact congrArg String.mk (List.append_assoc la lb lc)

lemma string_empty_append (a : String) : "" ++ a = a := by
  cases a with | mk la => rfl

set_option maxRecDepth 4096 in
lemma prompt_decomposition (m : PaLMPromptModule) (s : String) :
    PaLMPromptModule.generate_recipe_preperation_time_prompt m s
      = prepTimeTextBefore ++ s ++ prepTimeTextAfter := by
  show ("" ++ prepTimeTextBefore) ++ s ++ prepTimeTextAfter
    = prepTimeTextBefore ++ s ++ prepTimeTextAfter
  rw [string_empty_append]

set_option maxRecDepth 4096 in
lemma prepTimeTextBefore_split :
    prepTimeTextBefore = indentUnit ++ prepTimeTextBeforeRest := by
  decide

set_option maxRecDepth 4096 in
lemma prepTimeTextAfter_split :
    prepTimeTextAfter = prepTimeTextAfterBody ++ indentUnit := by
  decide

lemma generate_text_preserves_self {ε : Type}
    (palmGenerateText : GenerateTextRequest → Except ε Completion)
    (self : PaLMLanguageModel) (p : String) (r : ℚ) (n : Int) :
    (PaLMLanguageModel.generate_text palmGenerateText self p r n).2 = self := by
  unfold PaLMLanguageModel.generate_text
  cases palmGenerateText (PaLMLanguageModel.generate_text_request self p r n) <;> rfl

lemma generate_text_foldl_preserves_self {ε : Type}
    (palmGenerateText : GenerateTextRequest → Except ε Completion) :
    ∀ (calls : List (String × ℚ × Int)) (self : PaLMLanguageModel),
      calls.foldl
        (fun st c =>
          (PaLMLanguageModel.generate_text palmGenerateText st c.1 c.2.1 c.2.2).2)
        self = self
  | [], _ => rfl
  | c :: rest, self => by
      rw [List.foldl_cons, generate_text_preserves_self]
      exact generate_text_foldl_preserves_self palmGenerateText rest self

/-! ### Claims -/

/-- Claim C1: for every string `s`, the prompt returned by
`generate_recipe_preperation_time_prompt(s)` is the fixed text before the
substitution point, then `s` verbatim, then the fixed text after it; the
template has exactly one interpolation field, so `s` is substituted exactly
once, and the remaining text (`prepTimeTextBefore` and `prepTimeTextAfter`,
both constants) is byte-identical across all calls. -/
theorem C1_prompt_contains_name_once_rest_fixed
    (m : PaLMPromptModule) (s : String) :
    PaLMPromptModule.generate_recipe_preperation_time_prompt m s
      = prepTimeTextBefore ++ s ++ prepTimeTextAfter
    ∧ prepTimeTemplate.countP FStringPart.isField = 1 :=
  ⟨prompt_decomposition m s, rfl⟩

/-- Claim C2: `generate_text` forwards the caller's `randomness` as the
`temperature` of the remote request, `max_response_length` as its
`max_output_tokens`, and `prompt` unmodified; its result is the remote
service's answer on exactly that request; and with the optional arguments
omitted it calls `generate_text` with `0.7` and `1000`. -/
theorem C2_generate_text_forwards_parameters {ε : Type}
    (palmGenerateText : GenerateTextRequest → Except ε Completion)
    (self : PaLMLanguageModel) (prompt : String) (randomness : ℚ)
    (max_response_length : Int) :
    (PaLMLanguageModel.generate_text_request self prompt randomness
        max_response_length).temperature = randomness
    ∧ (PaLMLanguageModel.generate_text_request self prompt randomness
        max_response_length).max_output_tokens = max_response_length
    ∧ (PaLMLanguageModel.generate_text_request self prompt randomness
        max_response_length).prompt = prompt
    ∧ (PaLMLanguageModel.generate_text palmGenerateText self prompt randomness
        max_response_length).1
      = Except.map Completion.result
          (palmGenerateText
            (PaLMLanguageModel.generate_text_request self prompt randomness
              max_response_length))
    ∧ PaLMLanguageModel.generate_text_defaults palmGenerateText self prompt
      = PaLMLanguageModel.generate_text palmGenerateText self prompt
          (0.7 : ℚ) 1000 := by
  refine ⟨rfl, rfl, rfl, ?_, rfl⟩
  unfold PaLMLanguageModel.generate_text
  cases palmGenerateText
      (PaLMLanguageModel.generate_text_request self prompt randomness
        max_response_length) <;> rfl

/-- Claim C3: whenever the remote service answers the request with a
completion object, `generate_text` returns exactly that object's `result`
field, unmodified. -/
theorem C3_generate_text_returns_result_field {ε : Type}
    (palmGenerateText : GenerateTextRequest → Except ε Completion)
    (self : PaLMLanguageModel) (prompt : String) (randomness : ℚ)
    (max_response_length : Int) (completion : Completion)
    (h : palmGenerateText
        (PaLMLanguageModel.generate_text_request self prompt randomness
          max_response_length) = Except.ok completion) :
    (PaLMLanguageModel.generate_text palmGenerateText self prompt randomness
        max_response_length).1 = Except.ok completion.result := by
  unfold PaLMLanguageModel.generate_text
  rw [h]

/-- Witness for claim C3: a stubbed remote service that always answers
with the text `45 minutes`; `generate_text` returns exactly that text. -/
theorem C3_generate_text_returns_result_field_witness :
    ((fun _ => Except.ok ⟨some "45 minutes"⟩ :
        GenerateTextRequest → Except Nat Completion)
      (PaLMLanguageModel.generate_text_request ⟨"key"⟩ "Pasta" (0.7 : ℚ) 1000)
      = Except.ok (⟨some "45 minutes"⟩ : Completion))
    ∧ (PaLMLanguageModel.generate_text
        (fun _ => Except.ok ⟨some "45 minutes"⟩ :
          GenerateTextRequest → Except Nat Completion)
        ⟨"key"⟩ "Pasta" (0.7 : ℚ) 1000).1 = Except.ok (some "45 minutes") :=
  ⟨rfl,
    C3_generate_text_returns_result_field
      (fun _ => Except.ok ⟨some "45 minutes"⟩) ⟨"key"⟩ "Pasta" (0.7 : ℚ) 1000
      ⟨some "45 minutes"⟩ rfl⟩

/-- Claim C4: every request built by `generate_text` names the model
`models/text-bison-001`, for all arguments and instances; two calls with
different arguments and instances build requests with the same model
field. -/
theorem C4_model_name_fixed (self self2 : PaLMLanguageModel)
    (p p2 : String) (r r2 : ℚ) (n n2 : Int) :
    (PaLMLanguageModel.generate_text_request self p r n).model
      = "models/text-bison-001"
    ∧ (PaLMLanguageModel.generate_text_request self p r n).model
      = (PaLMLanguageModel.generate_text_request self2 p2 r2 n2).model :=
  ⟨rfl, rfl⟩

/-- Claim C5: after constructing a first instance with key `k` and then a
second with a different key `k2`, a `generate_text` call on the first
instance goes out with credential `k2` — the last-configured, process-wide
key — which is not the first instance's stored key. -/
theorem C5_last_configured_key_governs (k k2 p : String) (r : ℚ) (n : Int)
    (cfg0 : PalmGlobalConfig) (h : k ≠ k2) :
    ((PaLMLanguageModel.init k cfg0).1).api_key = k
    ∧ (PaLMLanguageModel.generate_text_outbound
        (PaLMLanguageModel.init k2 (PaLMLanguageModel.init k cfg0).2).2
        (PaLMLanguageModel.init k cfg0).1 p r n).credential = some k2
    ∧ (PaLMLanguageModel.generate_text_outbound
        (PaLMLanguageModel.init k2 (PaLMLanguageModel.init k cfg0).2).2
        (PaLMLanguageModel.init k cfg0).1 p r n).credential
      ≠ some ((PaLMLanguageModel.init k cfg0).1).api_key := by
  refine ⟨rfl, rfl, ?_⟩
  intro hc
  exact h (Option.some.inj hc).symm

/-- Witness for claim C5: two concrete keys; the outbound call after the
second construction carries the second key, not the first instance's. -/
theorem C5_last_configured_key_governs_witness :
    "first-key" ≠ "second-key"
    ∧ (((PaLMLanguageModel.init "first-key" ⟨none⟩).1).api_key = "first-key"
      ∧ (PaLMLanguageModel.generate_text_outbound
          (PaLMLanguageModel.init "second-key"
            (PaLMLanguageModel.init "first-key" ⟨none⟩).2).2
          (PaLMLanguageModel.init "first-key" ⟨none⟩).1 "Pasta" (0.7 : ℚ)
          1000).credential = some "second-key"
      ∧ (PaLMLanguageModel.generate_text_outbound
          (PaLMLanguageModel.init "second-key"
            (PaLMLanguageModel.init "first-key" ⟨none⟩).2).2
          (PaLMLanguageModel.init "first-key" ⟨none⟩).1 "Pasta" (0.7 : ℚ)
          1000).credential
        ≠ some (((PaLMLanguageModel.init "first-key" ⟨none⟩).1).api_key)) :=
  ⟨by decide,
    C5_last_configured_key_governs "first-key" "second-key" "Pasta" (0.7 : ℚ)
      1000 ⟨none⟩ (by decide)⟩

/-- Claim C6: if the remote call raises an error, `generate_text` yields
exactly that error, untranslated and unwrapped: there is no local catch,
retry or classification. -/
theorem C6_errors_propagate_unmodified {ε : Type}
    (palmGenerateText : GenerateTextRequest → Except ε Completion)
    (self : PaLMLanguageModel) (prompt : String) (randomness : ℚ)
    (max_response_length : Int) (e : ε)
    (h : palmGenerateText
        (PaLMLanguageModel.generate_text_request self prompt randomness
          max_response_length) = Except.error e) :
    (PaLMLanguageModel.generate_text palmGenerateText self prompt randomness
        max_response_length).1 = Except.error e := by
  unfold PaLMLanguageModel.generate_text
  rw [h]

/-- Witness for claim C6: a stubbed remote service that always raises
error `429`; `generate_text` yields exactly that error. -/
theorem C6_errors_propagate_unmodified_witness :
    ((fun _ => Except.error 429 : GenerateTextRequest → Except Nat Completion)
      (PaLMLanguageModel.generate_text_request ⟨"key2"⟩ "Soup" (0.7 : ℚ) 1000)
      = Except.error 429)
    ∧ (PaLMLanguageModel.generate_text
        (fun _ => Except.error 429 :
          GenerateTextRequest → Except Nat Completion)
        ⟨"key2"⟩ "Soup" (0.7 : ℚ) 1000).1 = Except.error 429 :=
  ⟨rfl,
    C6_errors_propagate_unmodified (fun _ => Except.error 429) ⟨"key2"⟩ "Soup"
      (0.7 : ℚ) 1000 429 rfl⟩

/-- Claim C7: on the empty string the prompt builder is defined and
returns the template with an empty substitution: the text before the
substitution point directly followed by the text after it. -/
theorem C7_empty_recipe_name_ok (m : PaLMPromptModule) :
    PaLMPromptModule.generate_recipe_preperation_time_prompt m ""
      = prepTimeTextBefore ++ prepTimeTextAfter := by
  rw [prompt_decomposition, string_append_assoc, string_empty_append]

/-- Claim C8: the instance credential is set exactly once, at
construction, to the `api_key` argument; a `generate_text` call leaves the
instance unchanged, and so does every sequence of such calls. -/
theorem C8_api_key_set_once_never_mutated {ε : Type}
    (palmGenerateText : GenerateTextRequest → Except ε Completion)
    (api_key : String) (cfg : PalmGlobalConfig) :
    ((PaLMLanguageModel.init api_key cfg).1).api_key = api_key
    ∧ (∀ (self : PaLMLanguageModel) (p : String) (r : ℚ) (n : Int),
        (PaLMLanguageModel.generate_text palmGenerateText self p r n).2 = self)
    ∧ (∀ (self : PaLMLanguageModel) (calls : List (String × ℚ × Int)),
        calls.foldl
          (fun st c =>
            (PaLMLanguageModel.generate_text palmGenerateText st c.1 c.2.1
              c.2.2).2)
          self = self) :=
  ⟨rfl,
    fun self p r n => generate_text_preserves_self palmGenerateText self p r n,
    fun self calls =>
      generate_text_foldl_preserves_self palmGenerateText calls self⟩

/-- Claim C9: for every string `s`, the returned prompt begins with a
newline followed by eight spaces and ends with a newline followed by eight
spaces. -/
theorem C9_prompt_leading_trailing_indent (m : PaLMPromptModule)
    (s : String) :
    (∃ t, PaLMPromptModule.generate_recipe_preperation_time_prompt m s
      = indentUnit ++ t)
    ∧ (∃ t, PaLMPromptModule.generate_recipe_preperation_time_prompt m s
      = t ++ indentUnit) := by
  constructor
  · refine ⟨prepTimeTextBeforeRest ++ s ++ prepTimeTextAfter, ?_⟩
    rw [prompt_decomposition, prepTimeTextBefore_split,
      string_append_assoc indentUnit prepTimeTextBeforeRest s,
      string_append_assoc indentUnit (prepTimeTextBeforeRest ++ s)
        prepTimeTextAfter]
  · refine ⟨prepTimeTextBefore ++ s ++ prepTimeTextAfterBody, ?_⟩
    rw [prompt_decomposition, prepTimeTextAfter_split,
      ← string_append_assoc (prepTimeTextBefore ++ s) prepTimeTextAfterBody
        indentUnit]

/-- Claim C10: the prompt builder is deterministic and independent of the
instance: any two `PaLMPromptModule` instances are equal (the structure
stores no state), and the method returns the same string on both for any
`s`. -/
theorem C10_prompt_instance_independent (m1 m2 : PaLMPromptModule)
    (s : String) :
    m1 = m2
    ∧ PaLMPromptModule.generate_recipe_preperation_time_prompt m1 s
      = PaLMPromptModule.generate_recipe_preperation_time_prompt m2 s :=
  ⟨by cases m1; cases m2; rfl, rfl⟩

end RecipeML
